import Mathlib

/-!
Verification development for the historical-data ingestion pipeline
(hist_generation/polygon_to_mysql.py).

The embedding is shallow: Python scalar values that flow through the
configuration resolver and the row transformer are modelled by the
inductive type Val (None, bool, int, str; YAML float scalars and the
exponent form of float strings are outside the embedding, as no claim
depends on them).  Dict lookup is modelled by Option-valued functions,
exceptions by Except, and the int()/float() conversions by total
functions into Option (none = the conversion raises).
-/

/-- A Python scalar value as it appears in the configuration document or
in a provider record: None, a bool, an int, or a str. -/
inductive Val where
  | vNone
  | vBool (b : Bool)
  | vInt (n : Int)
  | vStr (s : String)
deriving DecidableEq

open Val

/-- Python truthiness on scalars: None, False, 0 and the empty string are
falsy, everything else truthy.  The expression not p.get(k) in the source
tests this. -/
def pyFalsy : Val → Bool
  | vNone => true
  | vBool b => !b
  | vInt n => n == 0
  | vStr s => s == ""

/-- Truthiness of a dict lookup: an absent key behaves like None. -/
def optFalsy : Option Val → Bool
  | none => true
  | some v => pyFalsy v

/-- Remove leading and trailing whitespace from a character list
(models str.strip restricted to ASCII whitespace). -/
def stripChars (cs : List Char) : List Char :=
  ((cs.dropWhile Char.isWhitespace).reverse.dropWhile Char.isWhitespace).reverse

/-- Strip then lower-case a string (models s.strip().lower() restricted
to ASCII). -/
def pyStripLower (s : String) : String :=
  ((stripChars s.toList).map Char.toLower).asString

/-- Value of a list of decimal digit characters. -/
def natOfDigits (cs : List Char) : Nat :=
  cs.foldl (fun a c => a * 10 + (c.toNat - 48)) 0

/-- Python int(s) on a string: optional surrounding whitespace, optional
sign, then a nonempty run of digits; anything else raises (none).
Underscore digit separators are not modelled. -/
def pyIntOfString (s : String) : Option Int :=
  match stripChars s.toList with
  | '-' :: r => if r ≠ [] ∧ r.all Char.isDigit then some (-(natOfDigits r : Int)) else none
  | '+' :: r => if r ≠ [] ∧ r.all Char.isDigit then some (natOfDigits r : Int) else none
  | r => if r ≠ [] ∧ r.all Char.isDigit then some (natOfDigits r : Int) else none

/-- Python float(s) on a string, restricted to plain decimal forms:
optional whitespace, optional sign, digits with at most one decimal
point and at least one digit.  The value is represented exactly as a
rational. -/
def pyFloatOfString (s : String) : Option Rat :=
  let core : List Char → Option Rat := fun body =>
    match body.splitOn '.' with
    | [ip] =>
        if ip ≠ [] ∧ ip.all Char.isDigit then some ((natOfDigits ip : Int) : Rat) else none
    | [ip, fp] =>
        if (ip ++ fp) ≠ [] ∧ (ip ++ fp).all Char.isDigit then
          some (((natOfDigits ip : Int) : Rat) + ((natOfDigits fp : Int) : Rat) / ((10 : Rat) ^ fp.length))
        else none
    | _ => none
  match stripChars s.toList with
  | '-' :: r => (core r).map (fun q => -q)
  | '+' :: r => core r
  | r => core r

/-- Python int(v) on a scalar value: ints pass through, bools become 0/1,
strings are parsed, None raises (none). -/
def pyIntOfVal : Val → Option Int
  | vInt n => some n
  | vBool b => some (if b then 1 else 0)
  | vStr s => pyIntOfString s
  | vNone => none

/-- Python str(v) on a scalar value. -/
def pyStr : Val → String
  | vStr s => s
  | vInt n => toString n
  | vBool b => if b then "True" else "False"
  | vNone => "None"

/-- The set of strings _as_bool accepts as true (source line 28). -/
def trueStrings : List String := ["1", "true", "t", "yes", "y"]

/-- Embedding of _as_bool (source lines 22 to 28): a bool passes through,
None yields the default, anything else is stringified, stripped,
lower-cased and tested for membership in trueStrings. -/
def as_bool (v : Val) (default : Bool) : Bool :=
  match v with
  | vBool b => b
  | vNone => default
  | w => decide (pyStripLower (pyStr w) ∈ trueStrings)

example : as_bool (vStr "YES ") false = true := by decide
example : as_bool (vStr "no") true = false := by decide
example : as_bool vNone true = true := by decide
example : as_bool (vInt 1) false = true := by decide
example : pyIntOfString "12.5" = none := by decide
example : pyIntOfString " 42 " = some 42 := by decide
example : pyFloatOfString "abc" = none := by decide

/-! ### ConfigResolver (resolve_polygon_cfg, resolve_mysql_cfg) -/

instance {ε α : Type} [DecidableEq ε] [DecidableEq α] : DecidableEq (Except ε α)
  | .ok a, .ok b =>
      if h : a = b then .isTrue (by rw [h])
      else .isFalse (by intro hc; cases hc; exact h rfl)
  | .error e, .error f =>
      if h : e = f then .isTrue (by rw [h])
      else .isFalse (by intro hc; cases hc; exact h rfl)
  | .ok _, .error _ => .isFalse (by intro hc; cases hc)
  | .error _, .ok _ => .isFalse (by intro hc; cases hc)

/-- The polygon section of the configuration document: each key either
absent or bound to a scalar value. -/
structure PolyCfg where
  apiKey : Option Val
  stocksTicker : Option Val
  multiplier : Option Val
  timespan : Option Val
  start_date : Option Val
  end_date : Option Val
  adjusted : Option Val
  sort : Option Val
  limit : Option Val
deriving DecidableEq

/-- The dict returned by resolve_polygon_cfg after overrides, defaults and
type normalization (the FetchSpec of the spec).  stocksTicker and
timespan are always bound after line 44 and line 48; multiplier and
limit hold the results of the int() calls on lines 54 and 55; adjusted
and sort hold the normalized values of lines 56 and 57; the remaining
keys are returned exactly as they were in the document. -/
structure PolySpec where
  apiKey : Option Val
  stocksTicker : Val
  start_date : Option Val
  end_date : Option Val
  timespan : Val
  multiplier : Int
  adjusted : Bool
  sort : String
  limit : Int
deriving DecidableEq

/-- Errors raised by the resolvers: the aggregated missing-field
ValueError of lines 62 and 74, or a TypeError/ValueError escaping one of
the int() normalizations on lines 54 and 55. -/
inductive ResolveErr where
  | missingFields (fields : List String)
  | intConvError (field : String)
deriving DecidableEq

/-- Lines 41 to 57 of resolve_polygon_cfg: copy the section, apply the
CLI ticker override (only when truthy), apply the STOCK_TICKER
environment override (os.getenv returns the environment value whenever
the variable is set, else the current value, defaulting to the empty
string), fill the documented defaults, and normalize types.  The int()
calls may raise. -/
def normalizePoly (p : PolyCfg) (ticker_override : Option String)
    (envTicker : Option String) : Except ResolveErr PolySpec :=
  let st1 : Option Val :=
    match ticker_override with
    | some o => if o = "" then p.stocksTicker else some (vStr o)
    | none => p.stocksTicker
  let st2 : Val :=
    match envTicker with
    | some e => vStr e
    | none => st1.getD (vStr "")
  let mult0 := p.multiplier.getD (vInt 1)
  let tsp := p.timespan.getD (vStr "minute")
  let adj0 := p.adjusted.getD (vStr "true")
  let sort0 := p.sort.getD (vStr "asc")
  let lim0 := p.limit.getD (vInt 50000)
  match pyIntOfVal mult0 with
  | none => .error (.intConvError "multiplier")
  | some mult =>
    match pyIntOfVal lim0 with
    | none => .error (.intConvError "limit")
    | some lim =>
      .ok { apiKey := p.apiKey
            stocksTicker := st2
            start_date := p.start_date
            end_date := p.end_date
            timespan := tsp
            multiplier := mult
            adjusted := as_bool adj0 true
            sort := if sort0 = vStr "asc" then "asc"
                    else if sort0 = vStr "desc" then "desc" else "asc"
            limit := lim }

/-- The required provider keys of line 59, in source order. -/
def requiredPoly : List String :=
  ["apiKey", "stocksTicker", "start_date", "end_date", "timespan", "multiplier"]

/-- Dict-style lookup on the normalized provider section, used by the
missing-field comprehension on line 60. -/
def polyGet (q : PolySpec) : String → Option Val
  | "apiKey" => q.apiKey
  | "stocksTicker" => some q.stocksTicker
  | "start_date" => q.start_date
  | "end_date" => q.end_date
  | "timespan" => some q.timespan
  | "multiplier" => some (vInt q.multiplier)
  | "adjusted" => some (vBool q.adjusted)
  | "sort" => some (vStr q.sort)
  | "limit" => some (vInt q.limit)
  | _ => none

/-- Line 60: the list of required provider keys whose value is falsy. -/
def missingPoly (q : PolySpec) : List String :=
  requiredPoly.filter (fun k => optFalsy (polyGet q k))

/-- Embedding of resolve_polygon_cfg (source lines 31 to 64), given the
polygon section, the CLI ticker override, and the STOCK_TICKER
environment variable. -/
def resolve_polygon_cfg (p : PolyCfg) (ticker_override : Option String)
    (envTicker : Option String) : Except ResolveErr PolySpec :=
  match normalizePoly p ticker_override envTicker with
  | .error e => .error e
  | .ok q => if missingPoly q = [] then .ok q else .error (.missingFields (missingPoly q))

/-- The mysql section of the configuration document. -/
structure MysqlCfg where
  host : Option Val
  port : Option Val
  database : Option Val
  username : Option Val
  password : Option Val
deriving DecidableEq

/-- The required store keys of line 71, in source order. -/
def requiredMysql : List String :=
  ["host", "port", "database", "username", "password"]

/-- Dict-style lookup on the mysql section. -/
def mysqlGet (m : MysqlCfg) : String → Option Val
  | "host" => m.host
  | "port" => m.port
  | "database" => m.database
  | "username" => m.username
  | "password" => m.password
  | _ => none

/-- Line 72: the list of required store keys whose value is falsy. -/
def missingMysql (m : MysqlCfg) : List String :=
  requiredMysql.filter (fun k => optFalsy (mysqlGet m k))

/-- Embedding of resolve_mysql_cfg (source lines 67 to 75): the section is
returned unchanged when no required key is falsy. -/
def resolve_mysql_cfg (m : MysqlCfg) : Except ResolveErr MysqlCfg :=
  if missingMysql m = [] then .ok m else .error (.missingFields (missingMysql m))

/-- A fully-populated valid polygon section used in concrete tests. -/
def cfgBase : PolyCfg :=
  { apiKey := some (vStr "k")
    stocksTicker := some (vStr "AAPL")
    multiplier := some (vInt 5)
    timespan := some (vStr "minute")
    start_date := some (vStr "2024-01-01")
    end_date := some (vStr "2024-02-01")
    adjusted := none
    sort := none
    limit := none }

/-- The spec the resolver produces from cfgBase with no overrides. -/
def specBase : PolySpec :=
  { apiKey := some (vStr "k")
    stocksTicker := vStr "AAPL"
    start_date := some (vStr "2024-01-01")
    end_date := some (vStr "2024-02-01")
    timespan := vStr "minute"
    multiplier := 5
    adjusted := true
    sort := "asc"
    limit := 50000 }

/-- specBase with the ticker replaced by the environment override. -/
def specEnvW : PolySpec := { specBase with stocksTicker := vStr "TSLA" }

/-- specBase with the ticker replaced by the CLI override. -/
def specCliW : PolySpec := { specBase with stocksTicker := vStr "MSFT" }

example : resolve_polygon_cfg cfgBase none none = .ok specBase := by decide

/-! ### RowTransformer (_get_attr, _to_row) -/

/-- A provider record as a property bag: each field name either absent or
bound to a scalar value.  The attribute-object case of _get_attr has
the same lookup semantics and is covered by this model. -/
def RawRecord : Type := String → Option Val

/-- Embedding of _get_attr (source lines 148 to 157): try each candidate
name in order and return the first bound value (even if that value is
None, matching the source, which tests key presence, not truthiness);
return the default None when no name is bound. -/
def _get_attr (rec : RawRecord) : List String → Val
  | [] => vNone
  | n :: rest =>
    match rec n with
    | some v => v
    | none => _get_attr rec rest

/-- The canonical row produced by _to_row, in the column order of the SQL
tuple.  The derived naive UTC datetime of line 175 is represented by the
epoch milliseconds it is computed from.  The field open_ carries a
trailing underscore because open is a Lean keyword. -/
structure AggregateRow where
  ticker : String
  multiplier : Int
  timespan : String
  ts_ms : Int
  dt_utc : Int
  open_ : Option Rat
  high : Option Rat
  low : Option Rat
  close : Option Rat
  volume : Option Int
  vwap : Option Rat
  transactions : Option Int
deriving DecidableEq

/-- Embedding of the local helper to_num (source lines 186 to 192):
float(x) with every exception caught, yielding None.  float(None)
raises, so None maps to None; bools map to 0 or 1. -/
def to_num : Val → Option Rat
  | vNone => none
  | vBool b => some (if b then 1 else 0)
  | vInt n => some ((n : Int) : Rat)
  | vStr s => pyFloatOfString s

/-- Embedding of the volume/transactions coercion (source lines 204 and
206): the expression int(v) if v is not None and not isinstance(v, bool)
else None.  Unlike to_num, the int() call here is not guarded by a
try/except, so an unparsable present value raises. -/
def int_field (fieldName : String) (x : Val) : Except String (Option Int) :=
  match x with
  | vNone => .ok none
  | vBool _ => .ok none
  | w =>
    match pyIntOfVal w with
    | some k => .ok (some k)
    | none => .error ("int() failed on " ++ fieldName)

/-- Lines 170 to 175 of _to_row: resolve the timestamp aliases, apply
int() (raising when unresolvable or unparsable), rescale second-epochs
below ten billion to milliseconds, and build the UTC datetime
(datetime.fromtimestamp fails outside the representable year range 1 to
9999, modelled as a bounds check on the milliseconds). -/
def tsStage (rec : RawRecord) : Except String Int :=
  match pyIntOfVal (_get_attr rec ["t", "timestamp"]) with
  | none => .error "unresolvable or unparsable timestamp"
  | some t0 =>
    let ts_ms : Int := if t0 < 10000000000 then t0 * 1000 else t0
    if ts_ms < -62135596800000 ∨ 253402300799999 < ts_ms then
      .error "datetime out of range"
    else
      .ok ts_ms

/-- Embedding of _to_row (source lines 160 to 207): one provider record
plus the (ticker, multiplier, timespan) context to one canonical row, or
an exception.  Field values are resolved short alias first, then long
alias; prices go through to_num (absent on parse failure), volume and
transactions through the unguarded int() coercion. -/
def _to_row (rec : RawRecord) (ticker : String) (multiplier : Int)
    (timespan : String) : Except String AggregateRow :=
  match tsStage rec with
  | .error e => .error e
  | .ok tms =>
    match int_field "volume" (_get_attr rec ["v", "volume"]) with
    | .error e => .error e
    | .ok vol =>
      match int_field "transactions" (_get_attr rec ["n", "transactions"]) with
      | .error e => .error e
      | .ok ntx =>
        .ok { ticker := ticker
              multiplier := multiplier
              timespan := timespan
              ts_ms := tms
              dt_utc := tms
              open_ := to_num (_get_attr rec ["o", "open"])
              high := to_num (_get_attr rec ["h", "high"])
              low := to_num (_get_attr rec ["l", "low"])
              close := to_num (_get_attr rec ["c", "close"])
              volume := vol
              vwap := to_num (_get_attr rec ["vw", "vwap"])
              transactions := ntx }

/-- A record holding only a short-form timestamp. -/
def recOnlyTs (t : Int) : RawRecord :=
  fun k => if k = "t" then some (vInt t) else none

example :
    (_to_row (recOnlyTs 9999999999) "X" 1 "minute").map (fun r => r.ts_ms) =
      .ok 9999999999000 := by decide
example :
    (_to_row (recOnlyTs 10000000000) "X" 1 "minute").map (fun r => r.ts_ms) =
      .ok 10000000000 := by decide

/-! ### RecordFetcher (fetch_aggregates) -/

/-- One pass of the pagination walk of fetch_aggregates, indexed by the
zero-based try number: the records appended to the shared items list
before the pass ended, and the exception it raised, if any (none means
the pass completed and the loop breaks).  Backoff sleeping has no
observable effect on the result and is not modelled. -/
def FetchStep (α ε : Type) : Type := Nat → List α × Option ε

/-- The retry loop of fetch_aggregates (source lines 227 to 250).  The
accumulator models the items list, which the source keeps across
retries; failsLeft counts the failures still allowed before the attempt
counter exceeds the retries budget (a run with retries = r re-raises on
the failure of try number r, zero-based). -/
def fetchGo (step : FetchStep α ε) : List α → Nat → Nat → Except ε (List α)
  | acc, tryIdx, 0 =>
    match (step tryIdx).2 with
    | none => .ok (acc ++ (step tryIdx).1)
    | some e => .error e
  | acc, tryIdx, n + 1 =>
    match (step tryIdx).2 with
    | none => .ok (acc ++ (step tryIdx).1)
    | some _ => fetchGo step (acc ++ (step tryIdx).1) (tryIdx + 1) n

/-- Embedding of fetch_aggregates (source lines 210 to 250): run the
pagination walk, retrying up to the given budget, starting from an empty
items list and try number zero. -/
def fetch_aggregates (step : FetchStep α ε) (retries : Nat) : Except ε (List α) :=
  fetchGo step [] 0 retries

example :
    fetch_aggregates (fun i => if i = 0 then ([], some "boom") else ([1, 2], none)) 1 =
      .ok [1, 2] := by decide
example :
    fetch_aggregates (fun i => if i = 0 then ([], some "boom") else ([1, 2], none)) 0 =
      .error "boom" := by decide

/-! ### BatchLoader (chunked and the insert loop of main) -/

/-- Embedding of chunked (source lines 141 to 143): successive contiguous
slices of the given size.  The source iterates range(0, len, size),
which yields nothing on an empty list; range raises for size = 0, a
case the pipeline never exercises (argparse type int with default 1000),
modelled here as no batches. -/
def chunked (l : List α) (size : Nat) : List (List α) :=
  if h : size = 0 then []
  else if hl : l.isEmpty then []
  else l.take size :: chunked (l.drop size) size
termination_by l.length
decreasing_by
  simp only [List.length_drop]
  have h1 : 0 < size := Nat.pos_of_ne_zero h
  have h2 : 0 < l.length := by
    cases l with
    | nil => simp at hl
    | cons a t => simp
  omega

/-- The insert loop of main (source lines 297 to 304): one executemany
plus commit per batch, counting the transactions issued and accumulating
the cumulative progress total.  The first component is the number of
transactions, the second the final value of the total counter. -/
def run_batches (batches : List (List α)) : Nat × Nat :=
  batches.foldl (fun t b => (t.1 + 1, t.2 + b.length)) (0, 0)

example : chunked [1, 2, 3, 4, 5] 2 = [[1, 2], [3, 4], [5]] := by
  simp [chunked, run_batches]
example : run_batches (chunked [1, 2, 3, 4, 5] 2) = (3, 5) := by
  simp [chunked, run_batches]

/-! ### Claim C9: tolerant boolean parse -/

/-- C9 (counterexample): the claim states that every non-boolean value
parses to true exactly when its stripped lower-cased string form is in
the accepting set.  The value None is not a boolean, its string form is
the word None, which is not in the accepting set, yet _as_bool returns
the default true rather than false. -/
theorem c9_counterexample :
    as_bool Val.vNone true = true ∧ pyStripLower (pyStr Val.vNone) ∉ trueStrings := by
  decide

/-- C9 (amended): for every value that is neither a boolean nor None, the
tolerant parse never fails and returns true exactly when the stripped
lower-cased string form is one of 1, true, t, yes, y; a None value
instead yields the supplied default (true at the adjusted call site). -/
theorem c9_as_bool_amended (v : Val) (d : Bool)
    (hb : ∀ b, v ≠ Val.vBool b) (hn : v ≠ Val.vNone) :
    (as_bool v d = true ↔ pyStripLower (pyStr v) ∈ trueStrings) := by
  cases v with
  | vNone => exact absurd rfl hn
  | vBool b => exact absurd rfl (hb b)
  | vInt n => exact decide_eq_true_iff
  | vStr s => exact decide_eq_true_iff

theorem c9_witness :
    as_bool (Val.vStr " True ") false = true ↔
      pyStripLower (pyStr (Val.vStr " True ")) ∈ trueStrings :=
  c9_as_bool_amended (Val.vStr " True ") false (by intro b h; cases h) (by intro h; cases h)

/-! ### Claim C4: timespan validation -/

/-- The polygon section of a document whose timespan is outside the
enumerated set of the spec. -/
def cfgC4 : PolyCfg := { cfgBase with timespan := some (vStr "fortnight") }

/-- C4 (counterexample): a configuration whose timespan is fortnight, a
value outside the enumerated set second/minute/hour/day/week/month, is
accepted by the resolver, and the produced spec carries it verbatim. -/
theorem c4_counterexample :
    "fortnight" ∉ ["second", "minute", "hour", "day", "week", "month"] ∧
      (resolve_polygon_cfg cfgC4 none none).map (fun q => q.timespan) =
        .ok (vStr "fortnight") := by
  decide

/-- The spec normalizePoly produces when both int() conversions succeed:
stocksTicker reflects the override chain, the defaults are filled, and
adjusted and sort are normalized. -/
def normForm (p : PolyCfg) (ov env : Option String) (mult lim : Int) : PolySpec :=
  { apiKey := p.apiKey
    stocksTicker :=
      match env with
      | some e => vStr e
      | none =>
        (match ov with
         | some o => if o = "" then p.stocksTicker else some (vStr o)
         | none => p.stocksTicker).getD (vStr "")
    start_date := p.start_date
    end_date := p.end_date
    timespan := p.timespan.getD (vStr "minute")
    multiplier := mult
    adjusted := as_bool (p.adjusted.getD (vStr "true")) true
    sort := if p.sort.getD (vStr "asc") = vStr "asc" then "asc"
            else if p.sort.getD (vStr "asc") = vStr "desc" then "desc" else "asc"
    limit := lim }

lemma normalizePoly_ok_iff (p : PolyCfg) (ov env : Option String) (q : PolySpec) :
    normalizePoly p ov env = .ok q ↔
      ∃ mult lim, pyIntOfVal (p.multiplier.getD (vInt 1)) = some mult ∧
        pyIntOfVal (p.limit.getD (vInt 50000)) = some lim ∧
        q = normForm p ov env mult lim := by
  simp only [normalizePoly, normForm]
  cases hm : pyIntOfVal (p.multiplier.getD (vInt 1)) with
  | none => simp
  | some mult =>
    cases hl : pyIntOfVal (p.limit.getD (vInt 50000)) with
    | none => simp
    | some lim =>
      constructor
      · intro h
        cases h
        exact ⟨mult, lim, rfl, rfl, rfl⟩
      · rintro ⟨m2, l2, hm2, hl2, hq⟩
        cases hm2
        cases hl2
        rw [hq]

lemma resolve_ok_elim (p : PolyCfg) (ov env : Option String) (q : PolySpec)
    (h : resolve_polygon_cfg p ov env = .ok q) :
    normalizePoly p ov env = .ok q ∧ missingPoly q = [] := by
  revert h
  unfold resolve_polygon_cfg
  cases hn : normalizePoly p ov env with
  | error e => intro h; cases h
  | ok q0 =>
    by_cases hm : missingPoly q0 = []
    · simp only [hm, if_pos]
      intro h
      cases h
      exact ⟨rfl, hm⟩
    · simp only [hm, if_neg, if_false]
      intro h
      cases h

lemma resolve_missing_elim (p : PolyCfg) (ov env : Option String) (q : PolySpec)
    (hn : normalizePoly p ov env = .ok q) (hm : missingPoly q ≠ []) :
    resolve_polygon_cfg p ov env = .error (.missingFields (missingPoly q)) := by
  unfold resolve_polygon_cfg
  rw [hn]
  simp [hm]

/-- C4 (amended): the resolver does not validate or case-normalize
timespan against any enumerated set; the produced spec carries the
document value verbatim (defaulting to minute when the key is absent),
and the only check it passes is truthiness (the required-field check). -/
theorem c4_timespan_amended (p : PolyCfg) (ov env : Option String) (q : PolySpec)
    (h : resolve_polygon_cfg p ov env = .ok q) :
    q.timespan = p.timespan.getD (vStr "minute") ∧ pyFalsy q.timespan = false := by
  obtain ⟨hn, hmiss⟩ := resolve_ok_elim p ov env q h
  obtain ⟨mult, lim, _, _, hq⟩ := (normalizePoly_ok_iff p ov env q).mp hn
  constructor
  · simp [hq, normForm]
  · have h2 := (List.filter_eq_nil_iff.mp hmiss) "timespan" (by decide)
    simpa [optFalsy, polyGet] using h2

theorem c4_witness :
    specBase.timespan = cfgBase.timespan.getD (vStr "minute") ∧
      pyFalsy specBase.timespan = false :=
  c4_timespan_amended cfgBase none none specBase (by decide)

/-! ### Claim C8: positivity of multiplier and limit -/

/-- A polygon section with a negative multiplier and a zero limit. -/
def cfgC8 : PolyCfg :=
  { cfgBase with multiplier := some (vInt (-3)), limit := some (vInt 0) }

/-- C8 (counterexample): the claim states that no accepted spec has a
zero or negative multiplier or limit, yet a document with multiplier -3
and limit 0 is accepted verbatim (the required-field check only rejects
a multiplier equal to zero, because Python truthiness treats exactly 0
as falsy, and limit is not in the required list at all). -/
theorem c8_counterexample :
    (resolve_polygon_cfg cfgC8 none none).map (fun q => (q.multiplier, q.limit)) =
      .ok (-3, 0) := by
  decide

/-- C8 (amended): the invariant actually enforced is only that the
multiplier of every accepted spec is a nonzero integer (zero is falsy
and is therefore reported by the required-field check); the limit is
unconstrained. -/
theorem c8_multiplier_amended (p : PolyCfg) (ov env : Option String) (q : PolySpec)
    (h : resolve_polygon_cfg p ov env = .ok q) : q.multiplier ≠ 0 := by
  obtain ⟨_, hmiss⟩ := resolve_ok_elim p ov env q h
  have h2 := (List.filter_eq_nil_iff.mp hmiss) "multiplier" (by decide)
  simp only [optFalsy, polyGet, pyFalsy] at h2
  intro hz
  rw [hz] at h2
  simp at h2

theorem c8_witness :
    specBase.multiplier ≠ 0 :=
  c8_multiplier_amended cfgBase none none specBase (by decide)

/-! ### Claim C7: aggregated missing-field error -/

/-- A polygon section in which two required fields are affected: apiKey
is missing entirely and multiplier is bound to the empty string. -/
def cfgC7 : PolyCfg := { cfgBase with apiKey := none, multiplier := some (vStr "") }

/-- C7 (counterexample): in this document two required provider fields
are missing or empty (apiKey and multiplier), yet the resolver does not
produce the aggregated missing-field error: int() is applied to the
empty-string multiplier on line 54, before the required-field check of
lines 59 to 62 runs, so the run dies with the int conversion error,
which names no missing field. -/
theorem c7_counterexample :
    optFalsy cfgC7.apiKey = true ∧ pyFalsy (vStr "") = true ∧
      "apiKey" ∈ requiredPoly ∧ "multiplier" ∈ requiredPoly ∧
      resolve_polygon_cfg cfgC7 none none = .error (.intConvError "multiplier") := by
  decide

/-- C7 (amended): provided the int() normalizations of multiplier and
limit succeed, a document in which two or more required fields resolve
to falsy values fails with the single aggregated error listing exactly
the required fields of that section whose resolved value is falsy, in
the fixed source order; the store section, which has no normalization
step, aggregates unconditionally. -/
theorem c7_missing_amended :
    (∀ (p : PolyCfg) (ov env : Option String) (q : PolySpec),
        normalizePoly p ov env = .ok q → 2 ≤ (missingPoly q).length →
          resolve_polygon_cfg p ov env = .error (.missingFields (missingPoly q)) ∧
          ∀ k, k ∈ missingPoly q ↔ k ∈ requiredPoly ∧ optFalsy (polyGet q k) = true) ∧
    (∀ m : MysqlCfg, 2 ≤ (missingMysql m).length →
        resolve_mysql_cfg m = .error (.missingFields (missingMysql m)) ∧
          ∀ k, k ∈ missingMysql m ↔ k ∈ requiredMysql ∧ optFalsy (mysqlGet m k) = true) := by
  constructor
  · intro p ov env q hn hlen
    refine ⟨resolve_missing_elim p ov env q hn ?_, fun k => List.mem_filter⟩
    intro hnil
    rw [hnil] at hlen
    simp at hlen
  · intro m hlen
    have hne : missingMysql m ≠ [] := by
      intro hnil
      rw [hnil] at hlen
      simp at hlen
    exact ⟨by unfold resolve_mysql_cfg; simp [hne], fun k => List.mem_filter⟩

/-- A polygon section missing apiKey and with an empty start date, whose
multiplier and limit normalize fine. -/
def cfgC7w : PolyCfg := { cfgBase with apiKey := none, start_date := some (vStr "") }

/-- A mysql section missing host and password. -/
def mysqlC7w : MysqlCfg :=
  { host := none
    port := some (vInt 3306)
    database := some (vStr "db")
    username := some (vStr "u")
    password := some (vStr "") }

theorem c7_witness :
    resolve_polygon_cfg cfgC7w none none =
        .error (.missingFields ["apiKey", "start_date"]) ∧
      resolve_mysql_cfg mysqlC7w = .error (.missingFields ["host", "password"]) := by
  have hpoly := (c7_missing_amended.1 cfgC7w none none
    { apiKey := none
      stocksTicker := vStr "AAPL"
      start_date := some (vStr "")
      end_date := some (vStr "2024-02-01")
      timespan := vStr "minute"
      multiplier := 5
      adjusted := true
      sort := "asc"
      limit := 50000 } (by decide) (by decide)).1
  have hsql := (c7_missing_amended.2 mysqlC7w (by decide)).1
  constructor
  · rw [hpoly]
    decide
  · rw [hsql]
    decide

/-! ### Claim C10: ticker override precedence -/

/-- C10: when the STOCK_TICKER environment variable is set to a non-empty
value, every accepted spec carries that value as its ticker, even when a
CLI override was also supplied; with the environment variable unset, a
non-empty CLI override wins over the document value. -/
theorem c10_ticker_precedence (p : PolyCfg) (o e : String)
    (he : e ≠ "") (ho : o ≠ "") :
    (∀ q : PolySpec, resolve_polygon_cfg p (some o) (some e) = .ok q →
        q.stocksTicker = vStr e) ∧
    (∀ q : PolySpec, resolve_polygon_cfg p (some o) none = .ok q →
        q.stocksTicker = vStr o) := by
  constructor
  · intro q h
    obtain ⟨hn, _⟩ := resolve_ok_elim p (some o) (some e) q h
    obtain ⟨mult, lim, _, _, hq⟩ := (normalizePoly_ok_iff p (some o) (some e) q).mp hn
    simp [hq, normForm]
  · intro q h
    obtain ⟨hn, _⟩ := resolve_ok_elim p (some o) none q h
    obtain ⟨mult, lim, _, _, hq⟩ := (normalizePoly_ok_iff p (some o) none q).mp hn
    simp [hq, normForm, ho]

theorem c10_witness :
    specEnvW.stocksTicker = vStr "TSLA" ∧ specCliW.stocksTicker = vStr "MSFT" := by
  have h := c10_ticker_precedence cfgBase "MSFT" "TSLA" (by decide) (by decide)
  exact ⟨h.1 specEnvW (by decide), h.2 specCliW (by decide)⟩

/-! ### Transformer inversion helpers -/

lemma tsStage_ok_elim (rec : RawRecord) (tms : Int) (h : tsStage rec = .ok tms) :
    ∃ t0 : Int, pyIntOfVal (_get_attr rec ["t", "timestamp"]) = some t0 ∧
      tms = if t0 < 10000000000 then t0 * 1000 else t0 := by
  revert h
  unfold tsStage
  cases hpi : pyIntOfVal (_get_attr rec ["t", "timestamp"]) with
  | none => intro h; cases h
  | some t0 =>
    simp only []
    intro h
    split at h
    case isTrue hlt =>
      split at h
      · cases h
      · cases h
        exact ⟨t0, rfl, (if_pos hlt).symm⟩
    case isFalse hge =>
      split at h
      · cases h
      · cases h
        exact ⟨tms, rfl, (if_neg hge).symm⟩

lemma _to_row_ok_elim (rec : RawRecord) (tk : String) (m : Int) (ts : String)
    (row : AggregateRow) (h : _to_row rec tk m ts = .ok row) :
    ∃ tms vol ntx,
      tsStage rec = .ok tms ∧
      int_field "volume" (_get_attr rec ["v", "volume"]) = .ok vol ∧
      int_field "transactions" (_get_attr rec ["n", "transactions"]) = .ok ntx ∧
      row = { ticker := tk, multiplier := m, timespan := ts, ts_ms := tms, dt_utc := tms
              open_ := to_num (_get_attr rec ["o", "open"])
              high := to_num (_get_attr rec ["h", "high"])
              low := to_num (_get_attr rec ["l", "low"])
              close := to_num (_get_attr rec ["c", "close"])
              volume := vol
              vwap := to_num (_get_attr rec ["vw", "vwap"])
              transactions := ntx } := by
  revert h
  unfold _to_row
  cases hts : tsStage rec with
  | error e => intro h; cases h
  | ok tms =>
    cases hv : int_field "volume" (_get_attr rec ["v", "volume"]) with
    | error e => intro h; cases h
    | ok vol =>
      cases hn : int_field "transactions" (_get_attr rec ["n", "transactions"]) with
      | error e => intro h; cases h
      | ok ntx =>
        intro h
        cases h
        exact ⟨tms, vol, ntx, rfl, rfl, rfl, rfl⟩

/-! ### Claim C1: timestamp unit normalization -/

/-- C1: whenever the resolved timestamp of a record converts to the
integer t, any row the transformer produces carries exactly the
normalized milliseconds: t scaled by 1000 when t is below ten billion,
t unchanged otherwise; in particular 9999999999 becomes 9999999999000
and 10000000000 stays 10000000000. -/
theorem c1_ts_normalization :
    (∀ (rec : RawRecord) (t : Int),
        pyIntOfVal (_get_attr rec ["t", "timestamp"]) = some t →
        ∀ (tk : String) (m : Int) (ts : String) (row : AggregateRow),
          _to_row rec tk m ts = .ok row →
          row.ts_ms = if t < 10000000000 then t * 1000 else t) ∧
    (_to_row (recOnlyTs 9999999999) "X" 1 "minute").map (fun r => r.ts_ms) =
      .ok 9999999999000 ∧
    (_to_row (recOnlyTs 10000000000) "X" 1 "minute").map (fun r => r.ts_ms) =
      .ok 10000000000 := by
  refine ⟨?_, by decide, by decide⟩
  intro rec t ht tk m ts row hrow
  obtain ⟨tms, vol, ntx, hts, _, _, hq⟩ := _to_row_ok_elim rec tk m ts row hrow
  obtain ⟨t0, ht0, htms⟩ := tsStage_ok_elim rec tms hts
  rw [ht] at ht0
  cases ht0
  rw [hq, htms]

/-- The row produced from a record holding only the short-form timestamp
9999999999 (a seconds epoch). -/
def rowT1 : AggregateRow :=
  { ticker := "X", multiplier := 1, timespan := "minute"
    ts_ms := 9999999999000, dt_utc := 9999999999000
    open_ := none, high := none, low := none, close := none
    volume := none, vwap := none, transactions := none }

theorem c1_witness :
    rowT1.ts_ms =
      if (9999999999 : Int) < 10000000000 then 9999999999 * 1000 else 9999999999 :=
  c1_ts_normalization.1 (recOnlyTs 9999999999) 9999999999 (by decide)
    "X" 1 "minute" rowT1 (by decide)

/-! ### Claim C2: mandatory price fields -/

/-- A record with a millisecond timestamp and an unparsable open price. -/
def recC2 : RawRecord :=
  fun k => if k = "t" then some (vInt 1700000000000)
           else if k = "o" then some (vStr "abc") else none

/-- C2 (counterexample): the claim states the transformer fails when
open cannot be parsed as a number; in fact the local to_num helper
swallows the parse failure and the transformer happily produces a row
whose open field is absent. -/
theorem c2_counterexample :
    pyFloatOfString "abc" = none ∧
      _to_row recC2 "X" 1 "minute" =
        .ok { ticker := "X", multiplier := 1, timespan := "minute"
              ts_ms := 1700000000000, dt_utc := 1700000000000
              open_ := none, high := none, low := none, close := none
              volume := none, vwap := none, transactions := none } := by
  decide

/-- C2 (amended): unparsable or unresolvable open/high/low/close values
never make the transformer fail; each such price is emitted as absent
(to_num of the resolved value, which is None on any parse failure).
The only transform-stage failures are the timestamp stage and the
volume/transactions int() coercions; the mandatory-ness of the four
prices is enforced only downstream by the NOT NULL table columns. -/
theorem c2_price_amended (rec : RawRecord) (tk : String) (m : Int) (ts : String)
    (tms : Int) (vol ntx : Option Int)
    (h1 : tsStage rec = .ok tms)
    (h2 : int_field "volume" (_get_attr rec ["v", "volume"]) = .ok vol)
    (h3 : int_field "transactions" (_get_attr rec ["n", "transactions"]) = .ok ntx) :
    _to_row rec tk m ts =
      .ok { ticker := tk, multiplier := m, timespan := ts, ts_ms := tms, dt_utc := tms
            open_ := to_num (_get_attr rec ["o", "open"])
            high := to_num (_get_attr rec ["h", "high"])
            low := to_num (_get_attr rec ["l", "low"])
            close := to_num (_get_attr rec ["c", "close"])
            volume := vol
            vwap := to_num (_get_attr rec ["vw", "vwap"])
            transactions := ntx } := by
  simp only [_to_row, h1, h2, h3]

theorem c2_witness :
    _to_row recC2 "Y" 2 "hour" =
      .ok { ticker := "Y", multiplier := 2, timespan := "hour"
            ts_ms := 1700000000000, dt_utc := 1700000000000
            open_ := none, high := none, low := none, close := none
            volume := none, vwap := none, transactions := none } := by
  have h := c2_price_amended recC2 "Y" 2 "hour" 1700000000000 none none
    (by decide) (by decide) (by decide)
  rw [h]
  decide

/-! ### Claim C3: optional numeric fields -/

/-- A record with a millisecond timestamp and an unparsable volume. -/
def recC3 : RawRecord :=
  fun k => if k = "t" then some (vInt 1700000000000)
           else if k = "v" then some (vStr "abc") else none

/-- C3 (counterexample): the claim states that an unparsable volume
yields an absent optional field and never an error; in fact the
volume/transactions coercion applies int() outside any try/except, so
an unparsable present volume aborts the transform with an error. -/
theorem c3_counterexample :
    _get_attr recC3 ["v", "volume"] = vStr "abc" ∧
      pyIntOfString "abc" = none ∧
      _to_row recC3 "X" 1 "minute" = .error "int() failed on volume" := by
  decide

/-- C3 (amended): only vwap follows the tolerant rule — its field always
equals to_num of the resolved value, absent on any parse failure; for
volume and transactions the field is absent exactly when the resolved
value is missing, None, or a boolean, while a present unparsable value
raises and aborts the transform. -/
theorem c3_optional_amended :
    (∀ (rec : RawRecord) (tk : String) (m : Int) (ts : String) (row : AggregateRow),
        _to_row rec tk m ts = .ok row →
          row.vwap = to_num (_get_attr rec ["vw", "vwap"]) ∧
          .ok row.volume = int_field "volume" (_get_attr rec ["v", "volume"]) ∧
          .ok row.transactions =
            int_field "transactions" (_get_attr rec ["n", "transactions"])) ∧
    (∀ (rec : RawRecord) (tk : String) (m : Int) (ts : String) (tms : Int) (e : String),
        tsStage rec = .ok tms →
        int_field "volume" (_get_attr rec ["v", "volume"]) = .error e →
        _to_row rec tk m ts = .error e) ∧
    (∀ s : String, pyFloatOfString s = none → to_num (vStr s) = none) := by
  refine ⟨?_, ?_, ?_⟩
  · intro rec tk m ts row hrow
    obtain ⟨tms, vol, ntx, _, hv, hn, hq⟩ := _to_row_ok_elim rec tk m ts row hrow
    rw [hq]
    exact ⟨rfl, hv.symm, hn.symm⟩
  · intro rec tk m ts tms e h1 h2
    simp only [_to_row, h1, h2]
  · intro s h
    simpa [to_num] using h

/-- A record with a millisecond timestamp and an unparsable vwap. -/
def recC3w : RawRecord :=
  fun k => if k = "t" then some (vInt 1700000000000)
           else if k = "vw" then some (vStr "xyz") else none

/-- The row produced from recC3w. -/
def rowC3w : AggregateRow :=
  { ticker := "X", multiplier := 1, timespan := "minute"
    ts_ms := 1700000000000, dt_utc := 1700000000000
    open_ := none, high := none, low := none, close := none
    volume := none, vwap := none, transactions := none }

theorem c3_witness :
    rowC3w.vwap = to_num (_get_attr recC3w ["vw", "vwap"]) ∧
      .ok rowC3w.volume = int_field "volume" (_get_attr recC3w ["v", "volume"]) ∧
      .ok rowC3w.transactions =
        int_field "transactions" (_get_attr recC3w ["n", "transactions"]) :=
  c3_optional_amended.1 recC3w "X" 1 "minute" rowC3w (by decide)

/-! ### Claim C5: retry and backoff -/

lemma fetchGo_all_fail {α ε : Type} (step : FetchStep α ε) (f : Nat → ε)
    (hall : ∀ i, (step i).2 = some (f i)) :
    ∀ (n : Nat) (acc : List α) (j : Nat), fetchGo step acc j n = .error (f (j + n)) := by
  intro n
  induction n with
  | zero =>
    intro acc j
    simp only [fetchGo, hall j, Nat.add_zero]
  | succ n ih =>
    intro acc j
    simp only [fetchGo, hall j]
    have hj : j + (n + 1) = (j + 1) + n := by omega
    rw [hj]
    exact ih (acc ++ (step j).1) (j + 1)

/-- C5: with a provider pass that fails transiently on its first three
tries (yielding no records) and succeeds on the fourth, a retry budget
of 5 lets the fetch succeed with the full record set, while a budget of
2 re-raises the error of the last failed try; and in general, when every
try fails, a budget of r re-raises the error of try number r, the first
failure whose count exceeds the budget. -/
theorem c5_retry {α ε : Type} (step : FetchStep α ε) (e : Nat → ε) (recs : List α)
    (hfail : ∀ i < 3, step i = ([], some (e i)))
    (hsucc : step 3 = (recs, none)) :
    fetch_aggregates step 5 = .ok recs ∧
    fetch_aggregates step 2 = .error (e 2) ∧
    ∀ (step2 : FetchStep α ε) (f : Nat → ε) (r : Nat),
      (∀ i, (step2 i).2 = some (f i)) → fetch_aggregates step2 r = .error (f r) := by
  have h0 := hfail 0 (by omega)
  have h1 := hfail 1 (by omega)
  have h2 := hfail 2 (by omega)
  refine ⟨?_, ?_, ?_⟩
  · simp [fetch_aggregates, fetchGo, h0, h1, h2, hsucc]
  · simp [fetch_aggregates, fetchGo, h0, h1, h2]
  · intro step2 f r hall
    have h := fetchGo_all_fail step2 f hall r [] 0
    rw [Nat.zero_add] at h
    exact h

/-- A provider pass failing on tries 0, 1 and 2 and succeeding on try 3
with two records. -/
def stepC5 : FetchStep Nat String :=
  fun i => if i < 3 then ([], some "rate limited") else ([7, 8], none)

theorem c5_witness :
    fetch_aggregates stepC5 5 = .ok [7, 8] ∧
      fetch_aggregates stepC5 2 = .error "rate limited" :=
  ⟨(c5_retry stepC5 (fun _ => "rate limited") [7, 8] (by decide) (by decide)).1,
   (c5_retry stepC5 (fun _ => "rate limited") [7, 8] (by decide) (by decide)).2.1⟩

/-! ### Claim C6: chunking -/

lemma run_batches_foldl {α : Type} (bs : List (List α)) :
    ∀ a b : Nat,
      bs.foldl (fun t c => (t.1 + 1, t.2 + c.length)) (a, b) =
        (a + bs.length, b + (bs.map List.length).sum) := by
  induction bs with
  | nil => intro a b; simp
  | cons x xs ih =>
    intro a b
    simp only [List.foldl_cons, ih, List.length_cons, List.map_cons, List.sum_cons,
      Prod.mk.injEq]
    constructor <;> omega

lemma run_batches_eq {α : Type} (bs : List (List α)) :
    run_batches bs = (bs.length, (bs.map List.length).sum) := by
  unfold run_batches
  rw [run_batches_foldl]
  simp

lemma chunked_flatten {α : Type} (size : Nat) (hs : 0 < size) :
    ∀ (n : Nat) (l : List α), l.length ≤ n → (chunked l size).flatten = l := by
  have hne : size ≠ 0 := by omega
  intro n
  induction n with
  | zero =>
    intro l hl
    have hnil : l = [] := List.length_eq_zero.mp (Nat.le_zero.mp hl)
    subst hnil
    rw [chunked, dif_neg hne]
    simp
  | succ n ih =>
    intro l hl
    rcases l with _ | ⟨x, xs⟩
    · rw [chunked, dif_neg hne]
      simp
    · rw [chunked, dif_neg hne, dif_neg (by simp : ¬((x :: xs).isEmpty = true))]
      rw [List.flatten_cons]
      rw [ih ((x :: xs).drop size) (by
        simp only [List.length_drop, List.length_cons]
        simp only [List.length_cons] at hl
        omega)]
      exact List.take_append_drop size (x :: xs)

lemma chunked_count {α : Type} (size : Nat) (hs : 0 < size) :
    ∀ (n : Nat) (l : List α), l.length ≤ n →
      (chunked l size).length = (l.length + size - 1) / size := by
  have hne : size ≠ 0 := by omega
  intro n
  induction n with
  | zero =>
    intro l hl
    have hnil : l = [] := List.length_eq_zero.mp (Nat.le_zero.mp hl)
    subst hnil
    rw [chunked, dif_neg hne]
    simp only [List.length_nil, Nat.zero_add]
    exact (Nat.div_eq_of_lt (by omega)).symm
  | succ n ih =>
    intro l hl
    rcases l with _ | ⟨x, xs⟩
    · rw [chunked, dif_neg hne]
      simp only [List.length_nil, Nat.zero_add]
      exact (Nat.div_eq_of_lt (by omega)).symm
    · rw [chunked, dif_neg hne, dif_neg (by simp : ¬((x :: xs).isEmpty = true))]
      rw [List.length_cons]
      rw [ih ((x :: xs).drop size) (by
        simp only [List.length_drop, List.length_cons]
        simp only [List.length_cons] at hl
        omega)]
      simp only [List.length_drop, List.length_cons]
      rcases Nat.lt_or_ge (xs.length + 1) size with hlt | hge
      · have hz : xs.length + 1 - size = 0 := by omega
        rw [hz]
        rw [Nat.div_eq_of_lt (show 0 + size - 1 < size by omega)]
        rw [Nat.div_eq_of_lt_le
          (show 1 * size ≤ xs.length + 1 + size - 1 by omega)
          (show xs.length + 1 + size - 1 < (1 + 1) * size by omega)]
      · have hsplit :
            xs.length + 1 + size - 1 = (xs.length + 1 - size + size - 1) + size := by
          omega
        rw [hsplit, Nat.add_div_right _ hs]

/-- C6: for every row list and positive batch size, the loader issues one
transaction per batch, totalling ceil(N/B) transactions, the in-order
concatenation of the batches is the original list, and the final
cumulative progress total equals N. -/
theorem c6_chunking {α : Type} (rows : List α) (B : Nat) (hB : 0 < B) :
    (chunked rows B).flatten = rows ∧
    (run_batches (chunked rows B)).1 = (rows.length + B - 1) / B ∧
    (run_batches (chunked rows B)).2 = rows.length := by
  have hflat := chunked_flatten B hB rows.length rows (Nat.le_refl _)
  have hcount := chunked_count B hB rows.length rows (Nat.le_refl _)
  refine ⟨hflat, ?_, ?_⟩
  · rw [run_batches_eq]
    exact hcount
  · rw [run_batches_eq]
    have := List.length_flatten (chunked rows B)
    rw [hflat] at this
    exact this.symm

theorem c6_witness :
    (chunked [10, 20, 30, 40, 50] 2).flatten = [10, 20, 30, 40, 50] ∧
      (run_batches (chunked [10, 20, 30, 40, 50] 2)).1 = (5 + 2 - 1) / 2 ∧
      (run_batches (chunked [10, 20, 30, 40, 50] 2)).2 = 5 :=
  c6_chunking [10, 20, 30, 40, 50] 2 (by decide)
